import Mathlib

/-!
Shallow embedding of the streaming-telemetry collection engine of the
st2110-monitoring repository, covering:

* `exporters/gnmi/main.go` — the generic gNMI collector: `Subscribe`
  (receive loop), `handleUpdate`, `parseCounters`, `parseQoSStats`, and the
  per-switch goroutine started in `main`;
* `exporters/vendor/arista/eos_collector.go` — `handleAristaUpdate`;
* `exporters/vendor/evertz/eqx_exporter.go` — `collectSNMP`,
  `parseEvertzOID`, `splitOID`.

Modelling conventions: gNMI paths are lists of named, keyed elements; JSON
values already passed through `json.Unmarshal` are association lists from
field name to a JSON value (with `none` standing for bytes that fail to
unmarshal, in which case Go leaves the result struct at its zero value);
numeric values are modelled as `Int` (the float64 numbers the claims
exercise are integers represented exactly). Prometheus metric vectors are
modelled as a single store: a map from (metric name, label list) to the
current value, where `Set` replaces and `Add` accumulates, exactly as the
prometheus client library does. Index accesses `path.Elem[i]` are modelled
with optional indexing inside an `Option`: a `none` result marks an
out-of-bounds access that would panic in Go, so totality of the checked
decoders is a real theorem, not a modelling artifact.
-/

namespace St2110

/-- One gNMI path element (`gnmi.PathElem`): a name and a key map.
The Go map lookup `Key["name"]` yields the zero value "" when absent. -/
structure PathElem where
  name : String
  key : List (String × String)
deriving DecidableEq, Repr

/-- A gNMI path (`gnmi.Path`): vendor origin plus the element list. -/
structure GPath where
  origin : String
  elem : List PathElem
deriving DecidableEq, Repr

/-- A JSON scalar as produced by `json.Unmarshal` into `interface`-typed
fields: numbers (float64 in Go, modelled as exact integers), strings, or
anything else (for which the `.(float64)` type assertion fails). -/
inductive JsonVal where
  | num (n : Int)
  | str (s : String)
  | other
deriving DecidableEq, Repr

/-- A decoded JSON object: association list from field name to value. -/
abbrev JObj := List (String × JsonVal)

/-- A gNMI typed value (`gnmi.TypedValue`). `jsonIetf none` stands for a
non-nil JSON_IETF byte payload that fails to unmarshal; `otherVal` covers
value kinds for which `GetJsonIetfVal` returns nil and `GetUintVal`
returns 0. -/
inductive TypedValue where
  | jsonIetf (data : Option JObj)
  | uintVal (n : Int)
  | otherVal
deriving DecidableEq, Repr

/-- `value.GetUintVal()`: the uint payload, or 0 for any other kind. -/
def getUintVal : TypedValue → Int
  | .uintVal n => n
  | _ => 0

/-- One update inside a notification (`gnmi.Update`): path and value. -/
structure Update where
  path : GPath
  val : TypedValue
deriving DecidableEq, Repr

/-- A gNMI notification: the list of updates it carries. -/
structure Notification where
  update : List Update
deriving DecidableEq, Repr

/-- A `gnmi.SubscribeResponse`: either an update notification or the
initial-sync-complete marker. -/
inductive SubscribeResponse where
  | update (n : Notification)
  | syncResponse
deriving DecidableEq, Repr

/-- Go map lookup `m[k]` on a key map: the value, or the zero value ""
when the key is absent. -/
def keyLookup (m : List (String × String)) (k : String) : String :=
  match m.find? (fun p => p.1 = k) with
  | some p => p.2
  | none => ""

/-- JSON field lookup followed by the `.(float64)` type assertion:
`some n` when the field is present and numeric, `none` otherwise. -/
def jNum (o : JObj) (k : String) : Option Int :=
  match o.find? (fun p => p.1 = k) with
  | some (_, .num n) => some n
  | _ => none

/-- `InterfaceCounters` from `exporters/gnmi/main.go`; Go zero-initializes
every field. -/
structure InterfaceCounters where
  InOctets : Int := 0
  OutOctets : Int := 0
  InErrors : Int := 0
  OutErrors : Int := 0
  InDiscards : Int := 0
  OutDiscards : Int := 0
deriving DecidableEq, Repr

/-- `QoSStats` from `exporters/gnmi/main.go`. -/
structure QoSStats where
  BufferUtilization : Int := 0
  DroppedPackets : Int := 0
deriving DecidableEq, Repr

/-- `parseCounters` from `exporters/gnmi/main.go` lines 308-324: on
unmarshal failure the zero struct is returned; otherwise only the
"in-octets" and "out-octets" fields are extracted (the error and discard
fields are never assigned and stay 0). -/
def parseCounters (jsonData : Option JObj) : InterfaceCounters :=
  match jsonData with
  | none => {}
  | some data =>
      { InOctets := (jNum data "in-octets").getD 0
        OutOctets := (jNum data "out-octets").getD 0 }

/-- `parseQoSStats` from `exporters/gnmi/main.go` lines 326-340. -/
def parseQoSStats (jsonData : Option JObj) : QoSStats :=
  match jsonData with
  | none => {}
  | some data =>
      { BufferUtilization := (jNum data "buffer-utilization").getD 0
        DroppedPackets := (jNum data "dropped-packets").getD 0 }

/-- How a write hits a prometheus metric vector: gauge `Set` replaces,
counter `Add` accumulates. -/
inductive WriteOp where
  | set
  | add
deriving DecidableEq, Repr

/-- One write to a prometheus metric: metric name, label pairs in the
order declared for the vector, operation, numeric value. -/
structure Write where
  name : String
  labels : List (String × String)
  op : WriteOp
  value : Int
deriving DecidableEq, Repr

/-- The interface-counters branch of `handleUpdate`
(`exporters/gnmi/main.go` lines 258-273), with every `path.Elem[i]`
access checked: `none` marks an index access that would panic in Go. -/
def decodeInterfacesChecked (target : String) (p : GPath) (v : TypedValue) :
    Option (List Write) :=
  if 4 ≤ p.elem.length then
    match p.elem[0]? with
    | none => none
    | some e0 =>
      if e0.name = "interfaces" then
        match p.elem[1]? with
        | none => none
        | some e1 =>
          let ifaceName := keyLookup e1.key "name"
          match p.elem[2]?, p.elem[3]? with
          | some e2, some e3 =>
            if e2.name = "state" ∧ e3.name = "counters" then
              match v with
              | .jsonIetf jd =>
                let c := parseCounters jd
                some
                  [ ⟨"st2110_switch_interface_rx_bytes",
                      [("switch", target), ("interface", ifaceName)], .set, c.InOctets⟩,
                    ⟨"st2110_switch_interface_tx_bytes",
                      [("switch", target), ("interface", ifaceName)], .set, c.OutOctets⟩,
                    ⟨"st2110_switch_interface_rx_errors",
                      [("switch", target), ("interface", ifaceName)], .set, c.InErrors⟩,
                    ⟨"st2110_switch_interface_tx_errors",
                      [("switch", target), ("interface", ifaceName)], .set, c.OutErrors⟩,
                    ⟨"st2110_switch_interface_rx_drops",
                      [("switch", target), ("interface", ifaceName)], .set, c.InDiscards⟩,
                    ⟨"st2110_switch_interface_tx_drops",
                      [("switch", target), ("interface", ifaceName)], .set, c.OutDiscards⟩ ]
              | _ => some []
            else some []
          | _, _ => none
      else some []
  else some []

/-- The QoS-queue branch of `handleUpdate` (`exporters/gnmi/main.go`
lines 276-285), with checked element accesses. -/
def decodeQoSChecked (target : String) (p : GPath) (v : TypedValue) :
    Option (List Write) :=
  if 7 ≤ p.elem.length then
    match p.elem[0]? with
    | none => none
    | some e0 =>
      if e0.name = "qos" then
        match p.elem[2]?, p.elem[5]? with
        | some e2, some e5 =>
          let ifaceName := keyLookup e2.key "name"
          let queueName := keyLookup e5.key "name"
          match v with
          | .jsonIetf jd =>
            let q := parseQoSStats jd
            some
              [ ⟨"st2110_switch_qos_buffer_utilization",
                  [("switch", target), ("interface", ifaceName), ("queue", queueName)],
                  .set, q.BufferUtilization⟩,
                ⟨"st2110_switch_qos_dropped_packets",
                  [("switch", target), ("interface", ifaceName), ("queue", queueName)],
                  .set, q.DroppedPackets⟩ ]
          | _ => some []
        | _, _ => none
      else some []
  else some []

/-- The per-update body of `handleUpdate`: both branches run in sequence
(they are independent `if` statements, not an `if`/`else`). -/
def decodeUpdateChecked (target : String) (u : Update) : Option (List Write) :=
  match decodeInterfacesChecked target u.path u.val,
        decodeQoSChecked target u.path u.val with
  | some w1, some w2 => some (w1 ++ w2)
  | _, _ => none

/-- The writes `handleUpdate` emits for one update (total version). -/
def decodeUpdate (target : String) (u : Update) : List Write :=
  (decodeUpdateChecked target u).getD []

/-- The writes `handleUpdate` emits for one `SubscribeResponse`:
every update of an update notification in order; a sync response only
logs and writes nothing. -/
def handleUpdateWrites (target : String) (r : SubscribeResponse) : List Write :=
  match r with
  | .update n => (n.update.map (decodeUpdate target)).flatten
  | .syncResponse => []

/-- A metric identity: metric name plus its label pairs. -/
abbrev MetricKey := String × List (String × String)

/-- The prometheus registry state: latest value per metric identity. -/
def Store := MetricKey → Option Int

/-- The empty store: no metric has been written yet. -/
def emptyStore : Store := fun _ => none

/-- Read the current value of one metric identity. -/
def storeGet (s : Store) (k : MetricKey) : Option Int := s k

/-- Apply one write: `Set` replaces the value, `Add` adds to the current
value (a fresh prometheus counter starts at 0). -/
def applyWrite (s : Store) (w : Write) : Store :=
  fun k =>
    if k = (w.name, w.labels) then
      match w.op with
      | .set => some w.value
      | .add => some ((s (w.name, w.labels)).getD 0 + w.value)
    else s k

/-- Apply a list of writes in order. -/
def applyWrites (s : Store) (ws : List Write) : Store :=
  ws.foldl applyWrite s

/-! ## Receive loop (`Subscribe`, `exporters/gnmi/main.go` lines 234-243)

The loop receives with `stream.Recv()`; on a non-nil error it returns
the error wrapped as "stream error: ...", otherwise it calls
`handleUpdate` on the response and continues. A session trace is the
finite list of results `Recv` will deliver. -/

/-- One result of `stream.Recv()`: a response, or a non-nil error
(context cancellation surfaces here as an error too). -/
inductive RecvResult where
  | msg (r : SubscribeResponse)
  | recvErr (e : String)
deriving DecidableEq, Repr

/-- How `Subscribe` leaves its receive loop: a normal (nil-error) return,
a wrapped stream error, or still in the loop after the modelled trace. -/
inductive RunOutcome where
  | normal
  | streamError (e : String)
  | running
deriving DecidableEq, Repr

/-- The receive loop of `Subscribe`: processes responses until `Recv`
yields an error, which it returns wrapped as "stream error: ...". The
loop body has no `return nil` path, so `RunOutcome.normal` is never
produced; exhausting the modelled trace leaves the loop `running`. -/
def receiveLoop (target : String) (s : Store) :
    List RecvResult → Store × RunOutcome
  | [] => (s, .running)
  | .recvErr e :: _ => (s, .streamError ("stream error: " ++ e))
  | .msg r :: rest =>
      receiveLoop target (applyWrites s (handleUpdateWrites target r)) rest

/-- The per-switch goroutine of `main` (`exporters/gnmi/main.go` lines
386-392): it calls `Subscribe` exactly once, logs a non-nil error, and
returns — there is no retry loop and no backoff. The second component
lists the outcome of every session attempt made for the target. -/
def runTargetGoroutine (target : String) (s : Store) (trace : List RecvResult) :
    Store × List RunOutcome :=
  let res := receiveLoop target s trace
  (res.1, [res.2])

/-! ## Arista EOS collector (`exporters/vendor/arista/eos_collector.go`) -/

/-- The body of `handleAristaUpdate` for one update (lines 158-173), with
checked element accesses: requires origin "arista" and more than 7
elements, tests the element at index 7 for the name "dropped-pkts", and
reads labels from the keys at indices 4 and 6. The drops value is added
(`CounterVec.Add`), not set. -/
def decodeAristaChecked (target : String) (u : Update) : Option (List Write) :=
  if u.path.origin = "arista" ∧ 7 < u.path.elem.length then
    match u.path.elem[7]? with
    | none => none
    | some e7 =>
      if e7.name = "dropped-pkts" then
        match u.path.elem[4]?, u.path.elem[6]? with
        | some e4, some e6 =>
          let ifaceName := keyLookup e4.key "name"
          let queueID := keyLookup e6.key "queue-id"
          let drops := getUintVal u.val
          some
            [ ⟨"arista_hw_queue_drops_total",
                [("switch", target), ("interface", ifaceName), ("queue", queueID)],
                .add, drops⟩ ]
        | _, _ => none
      else some []
  else some []

/-- The writes `handleAristaUpdate` emits for one update (total version). -/
def decodeArista (target : String) (u : Update) : List Write :=
  (decodeAristaChecked target u).getD []

/-- The writes `handleAristaUpdate` emits for one `SubscribeResponse`. -/
def handleAristaUpdateWrites (target : String) (r : SubscribeResponse) : List Write :=
  match r with
  | .update n => (n.update.map (decodeArista target)).flatten
  | .syncResponse => []

/-- The name sequence of the hardware-queue-drops path template declared
in `SubscribeArista` (`eos_collector.go` lines 77-87). -/
def aristaDropsTemplateNames : List String :=
  ["eos", "arista-exp-eos-qos", "qos", "interfaces", "interface",
   "queues", "queue", "state", "dropped-pkts"]

/-- Modelled from the spec: recognition "by element name sequence and key
names, not by raw numeric position" against the declared Arista
hardware-queue-drops template — the path carries origin "arista", its
element names follow the template name sequence, and the keyed elements
carry the declared key names ("name" on interface, "queue-id" on queue).
This is the matching discipline the spec claims; it is compared against
what `handleAristaUpdate` actually computes. -/
def matchesAristaTemplate (p : GPath) : Prop :=
  p.origin = "arista" ∧
  p.elem.map (fun e => e.name) = aristaDropsTemplateNames ∧
  (∀ e ∈ p.elem, e.name = "interface" → (e.key.map (fun kv => kv.1)) = ["name"]) ∧
  (∀ e ∈ p.elem, e.name = "queue" → (e.key.map (fun kv => kv.1)) = ["queue-id"])

instance (p : GPath) : Decidable (matchesAristaTemplate p) := by
  unfold matchesAristaTemplate
  infer_instance

/-! ## Evertz EQX exporter (`exporters/vendor/evertz/eqx_exporter.go`) -/

/-- `splitOID` (lines 175-178): returns the empty slice for every input
("Simple OID parsing - implement proper parsing"). -/
def splitOID (_ : String) : List String :=
  []

/-- `parseEvertzOID` (lines 165-173): when `splitOID` yields at least 14
parts, positions 13 and 14 are taken as chassis and slot; otherwise the
fallback pair ("1", "5") is returned. -/
def parseEvertzOID (oid : String) : String × String :=
  let parts := splitOID oid
  if 14 ≤ parts.length then
    (parts.getD 13 "", parts.getD 14 "")
  else
    ("1", "5")

/-- One SNMP variable binding delivered to the `Walk` callback. -/
structure SnmpPDU where
  pduName : String
  pduValue : Int
deriving DecidableEq, Repr

/-- The write the `collectSNMP` walk callback performs for one PDU
(lines 115-122): labels are chassis, slot and the literal "unknown"
module type — the exporter target is not part of the label set. -/
def evertzModuleWrite (pdu : SnmpPDU) : Write :=
  let cs := parseEvertzOID pdu.pduName
  ⟨"evertz_eqx_module_status",
    [("chassis", cs.1), ("slot", cs.2), ("module_type", "unknown")],
    .set, pdu.pduValue⟩

/-- All writes `collectSNMP` performs for a walk over the module-status
OID subtree. The target parameter mirrors the exporter's `target` field,
which the label set does not use. -/
def collectSNMPWrites (_target : String) (pdus : List SnmpPDU) : List Write :=
  pdus.map evertzModuleWrite

/-! ## Decode outcome as the spec describes it

The spec claims `Decode` returns a `DecodeError` with an unrecognized
marker when a path matches no template. `handleUpdate` has no error
channel at all — its only effect is the (possibly empty) write list — so
its outcome always lands in the `ok` constructor. -/

/-- The outcome vocabulary the spec gives a decoder. -/
inductive DecodeOutcome where
  | ok (writes : List Write)
  | decodeErrorUnrecognized
deriving DecidableEq, Repr

/-- The outcome `handleUpdate` produces for one update: always `ok` with
the writes it performed — the function has no error return, so the
unrecognized-path case is indistinguishable from a recognized update
that produces no writes. -/
def decodeOutcome (target : String) (u : Update) : DecodeOutcome :=
  .ok (decodeUpdate target u)

/-- One step of the session: apply one update to the store and report the
writes it emitted. -/
def sessionStep (target : String) (s : Store) (u : Update) : Store × List Write :=
  let ws := decodeUpdate target u
  (applyWrites s ws, ws)

/-- Whether a `Recv` result is an error. -/
def RecvResult.isErr : RecvResult → Bool
  | .recvErr _ => true
  | .msg _ => false

/-- Apply one Arista update to the store. -/
def aristaApplyUpdate (target : String) (s : Store) (u : Update) : Store :=
  applyWrites s (decodeArista target u)

/-- An interface-counter update for interface `iface` whose JSON payload
carries only an "in-octets" field with value `v`. -/
def mkCounterUpdate (iface : String) (v : Int) : Update :=
  { path := { origin := "",
              elem := [⟨"interfaces", []⟩, ⟨"interface", [("name", iface)]⟩,
                       ⟨"state", []⟩, ⟨"counters", []⟩] },
    val := .jsonIetf (some [("in-octets", .num v)]) }

/-- Process a sequence of in-octets counter readings for one interface
through `handleUpdate`, in order. -/
def processCounterSeq (target iface : String) (s : Store) (vs : List Int) : Store :=
  vs.foldl (fun st v => applyWrites st (decodeUpdate target (mkCounterUpdate iface v))) s

/-- The identity of the received-octets metric for one target and
interface. -/
def rxKey (target iface : String) : MetricKey :=
  ("st2110_switch_interface_rx_bytes", [("switch", target), ("interface", iface)])

/-- Scenario A input: one interface-counter update at "eth0" with
1,000,000 input octets. -/
def c1Update : Update := mkCounterUpdate "eth0" 1000000

/-- An Arista hardware-queue-drops update the code recognizes: origin
"arista", 8 elements, "dropped-pkts" sitting at index 7. Its name
sequence does not follow the declared template (no "state" element). -/
def aristaPositionalUpdate : Update :=
  { path := { origin := "arista",
              elem := [⟨"eos", []⟩, ⟨"arista-exp-eos-qos", []⟩, ⟨"qos", []⟩,
                       ⟨"interfaces", []⟩, ⟨"interface", [("name", "Ethernet1")]⟩,
                       ⟨"queues", []⟩, ⟨"queue", [("queue-id", "0")]⟩,
                       ⟨"dropped-pkts", []⟩] },
    val := .uintVal 5 }

/-- An update whose path matches the declared Arista
hardware-queue-drops template exactly: origin "arista", the full
9-element name sequence, the declared key names on the keyed elements. -/
def aristaTemplateUpdate : Update :=
  { path := { origin := "arista",
              elem := [⟨"eos", []⟩, ⟨"arista-exp-eos-qos", []⟩, ⟨"qos", []⟩,
                       ⟨"interfaces", []⟩, ⟨"interface", [("name", "Ethernet1")]⟩,
                       ⟨"queues", []⟩, ⟨"queue", [("queue-id", "0")]⟩,
                       ⟨"state", []⟩, ⟨"dropped-pkts", []⟩] },
    val := .uintVal 3 }

/-- An update on a path neither `handleUpdate` branch recognizes. -/
def unmatchedUpdate : Update :=
  { path := { origin := "", elem := [⟨"system", []⟩, ⟨"clock", []⟩] },
    val := .jsonIetf (some [("boot-time", .num 42)]) }

/-! ## Helper lemmas -/

/-- The interface-counters branch never fails its checked element
accesses: the `len >= 4` guard covers indices 0 through 3. -/
theorem decodeInterfacesChecked_isSome (t : String) (p : GPath) (v : TypedValue) :
    (decodeInterfacesChecked t p v).isSome := by
  unfold decodeInterfacesChecked
  by_cases h : 4 ≤ p.elem.length
  · rw [if_pos h,
      List.getElem?_eq_getElem (show 0 < p.elem.length by omega),
      List.getElem?_eq_getElem (show 1 < p.elem.length by omega),
      List.getElem?_eq_getElem (show 2 < p.elem.length by omega),
      List.getElem?_eq_getElem (show 3 < p.elem.length by omega)]
    dsimp only
    split
    · split
      · cases v <;> rfl
      · rfl
    · rfl
  · rw [if_neg h]; rfl

/-- The QoS branch never fails its checked element accesses: the
`len >= 7` guard covers indices 0, 2 and 5. -/
theorem decodeQoSChecked_isSome (t : String) (p : GPath) (v : TypedValue) :
    (decodeQoSChecked t p v).isSome := by
  unfold decodeQoSChecked
  by_cases h : 7 ≤ p.elem.length
  · rw [if_pos h,
      List.getElem?_eq_getElem (show 0 < p.elem.length by omega),
      List.getElem?_eq_getElem (show 2 < p.elem.length by omega),
      List.getElem?_eq_getElem (show 5 < p.elem.length by omega)]
    dsimp only
    split
    · cases v <;> rfl
    · rfl
  · rw [if_neg h]; rfl

/-- The Arista branch never fails its checked element accesses: the
`len > 7` guard covers indices 4, 6 and 7. -/
theorem decodeAristaChecked_isSome (t : String) (u : Update) :
    (decodeAristaChecked t u).isSome := by
  unfold decodeAristaChecked
  by_cases h : u.path.origin = "arista" ∧ 7 < u.path.elem.length
  · rw [if_pos h,
      List.getElem?_eq_getElem (show 7 < u.path.elem.length by omega),
      List.getElem?_eq_getElem (show 4 < u.path.elem.length by omega),
      List.getElem?_eq_getElem (show 6 < u.path.elem.length by omega)]
    dsimp only
    split <;> rfl
  · rw [if_neg h]; rfl

/-- The receive loop has no normal-return path: its only exits are a
wrapped stream error, or still running at the end of the modelled trace. -/
theorem receiveLoop_ne_normal (t : String) :
    ∀ (evs : List RecvResult) (s : Store),
      (receiveLoop t s evs).2 ≠ RunOutcome.normal := by
  intro evs
  induction evs with
  | nil => intro s; simp [receiveLoop]
  | cons x rest ih =>
    intro s
    cases x with
    | msg r => exact ih _
    | recvErr e => simp [receiveLoop]

/-- The first `Recv` error is returned to the caller wrapped as a stream
error. -/
theorem receiveLoop_first_error (t : String) :
    ∀ (pre : List RecvResult) (s : Store) (e : String) (rest : List RecvResult),
      (∀ r ∈ pre, r.isErr = false) →
      (receiveLoop t s (pre ++ RecvResult.recvErr e :: rest)).2 =
        RunOutcome.streamError ("stream error: " ++ e) := by
  intro pre
  induction pre with
  | nil => intro s e rest _; simp [receiveLoop]
  | cons x pre ih =>
    intro s e rest hpre
    cases x with
    | msg r =>
      exact ih _ _ _ fun r hr => hpre r (List.mem_cons_of_mem _ hr)
    | recvErr e2 =>
      exact absurd (hpre _ (List.mem_cons_self _ _)) (by simp [RecvResult.isErr])

/-! ## Claim theorems -/

/-- C9: `parseEvertzOID` returns chassis "1" and slot "5" for every
input OID, because `splitOID` returns the empty slice for every input,
so the length guard never passes and the fallback pair is always
returned. -/
theorem c9_parseEvertzOID_constant (oid : String) :
    parseEvertzOID oid = ("1", "5") :=
  rfl

/-- C10: neither `handleUpdate` nor `handleAristaUpdate` ever indexes a
path element out of bounds: the checked decoders, in which any
unguarded index access would surface as `none`, succeed on every
update. -/
theorem c10_no_out_of_bounds (t : String) (u : Update) :
    (decodeUpdateChecked t u).isSome ∧ (decodeAristaChecked t u).isSome := by
  refine ⟨?_, decodeAristaChecked_isSome t u⟩
  unfold decodeUpdateChecked
  have h1 := decodeInterfacesChecked_isSome t u.path u.val
  have h2 := decodeQoSChecked_isSome t u.path u.val
  cases hi : decodeInterfacesChecked t u.path u.val with
  | none => rw [hi] at h1; exact absurd h1 (by simp)
  | some w1 =>
    cases hq : decodeQoSChecked t u.path u.val with
    | none => rw [hq] at h2; exact absurd h2 (by simp)
    | some w2 => rfl

/-- C6: decoding is deterministic and stateless: the writes a session
step emits for an update do not depend on the store state, and equal
the pure decode of that update. -/
theorem c6_decode_deterministic_stateless (t : String) (s₁ s₂ : Store) (u : Update) :
    (sessionStep t s₁ u).2 = (sessionStep t s₂ u).2 ∧
    (sessionStep t s₁ u).2 = decodeUpdate t u :=
  ⟨rfl, rfl⟩

/-- C4 counterexample: with a session trace that fails immediately, the
per-target goroutine of `main` makes exactly one session attempt — it
never retries, contradicting the claimed indefinite retry with
increasing backoff. -/
theorem c4_counterexample :
    ¬ 2 ≤ (runTargetGoroutine "sw1" emptyStore
            [RecvResult.recvErr "connection reset"]).2.length := by
  decide

/-- C4 amended: the per-target goroutine runs `Subscribe` exactly once,
whatever the session trace; on error it logs and terminates, with no
retry and no backoff schedule. -/
theorem c4_single_attempt_no_retry (t : String) (s : Store) (trace : List RecvResult) :
    (runTargetGoroutine t s trace).2.length = 1 :=
  rfl

/-- C3: the receive loop never returns a nil (normal) result, and the
first stream-level error from `Recv` is returned to the caller wrapped
as a stream error. -/
theorem c3_run_returns_only_stream_errors (t : String) (s : Store) (evs : List RecvResult) :
    (receiveLoop t s evs).2 ≠ RunOutcome.normal ∧
    ∀ pre e rest, evs = pre ++ RecvResult.recvErr e :: rest →
      (∀ r ∈ pre, r.isErr = false) →
      (receiveLoop t s evs).2 = RunOutcome.streamError ("stream error: " ++ e) := by
  refine ⟨receiveLoop_ne_normal t evs s, ?_⟩
  intro pre e rest heq hpre
  subst heq
  exact receiveLoop_first_error t pre s e rest hpre

/-- Witness for C3 at a concrete trace: one sync response followed by a
stream error. -/
theorem c3_witness :
    (receiveLoop "sw1" emptyStore
        [RecvResult.msg .syncResponse, RecvResult.recvErr "boom"]).2 =
      RunOutcome.streamError ("stream error: " ++ "boom") :=
  (c3_run_returns_only_stream_errors "sw1" emptyStore
      [RecvResult.msg .syncResponse, RecvResult.recvErr "boom"]).2
    [RecvResult.msg .syncResponse] "boom" [] rfl (by decide)

/-- The writes `handleUpdate` emits for an in-octets-only counter
update: received octets get the payload value, the remaining five
gauges get the zero struct fields. -/
theorem decodeUpdate_mkCounterUpdate (t iface : String) (v : Int) :
    decodeUpdate t (mkCounterUpdate iface v) =
      [ ⟨"st2110_switch_interface_rx_bytes",
          [("switch", t), ("interface", iface)], .set, v⟩,
        ⟨"st2110_switch_interface_tx_bytes",
          [("switch", t), ("interface", iface)], .set, 0⟩,
        ⟨"st2110_switch_interface_rx_errors",
          [("switch", t), ("interface", iface)], .set, 0⟩,
        ⟨"st2110_switch_interface_tx_errors",
          [("switch", t), ("interface", iface)], .set, 0⟩,
        ⟨"st2110_switch_interface_rx_drops",
          [("switch", t), ("interface", iface)], .set, 0⟩,
        ⟨"st2110_switch_interface_tx_drops",
          [("switch", t), ("interface", iface)], .set, 0⟩ ] :=
  rfl

/-- After one counter update the received-octets entry holds the
just-applied value, whatever the store held before. -/
theorem storeGet_after_counterUpdate (t iface : String) (s : Store) (v : Int) :
    storeGet (applyWrites s (decodeUpdate t (mkCounterUpdate iface v)))
      (rxKey t iface) = some v := by
  rw [decodeUpdate_mkCounterUpdate]
  simp [applyWrites, applyWrite, storeGet, rxKey]

/-- C1: scenario A — decoding one interface-counter update with
1,000,000 input octets at "eth0" stores a received-octets entry keyed
by exactly the owning target plus interface "eth0", with value
1,000,000. -/
theorem c1_interface_counter_stored (t : String) (s : Store) :
    storeGet (applyWrites s (handleUpdateWrites t (.update ⟨[c1Update]⟩)))
      (rxKey t "eth0") = some 1000000 := by
  have h : handleUpdateWrites t (.update ⟨[c1Update]⟩) =
      decodeUpdate t (mkCounterUpdate "eth0" 1000000) := by
    simp [handleUpdateWrites, c1Update]
  rw [h]
  exact storeGet_after_counterUpdate t "eth0" s 1000000

/-- C2 counterexample: the Arista handler adds (`CounterVec.Add`) the
reported cumulative drop count instead of storing it. Two successive
reports of 5 (a non-decreasing sequence) leave the stored value at 10,
not at the last-applied 5. -/
theorem c2_counterexample :
    storeGet (aristaApplyUpdate "sw1"
        (aristaApplyUpdate "sw1" emptyStore aristaPositionalUpdate)
        aristaPositionalUpdate)
      ("arista_hw_queue_drops_total",
        [("switch", "sw1"), ("interface", "Ethernet1"), ("queue", "0")]) = some 10 ∧
    (10 : Int) ≠ 5 :=
  ⟨rfl, by decide⟩

/-- C2 amended: for the generic gNMI handler, whose writes use gauge
`Set` semantics, the stored received-octets value after any sequence of
updates equals the last applied value — covering both non-decreasing
sequences and a decreasing final value, which is adopted as a reset.
The Arista hardware-queue-drops handler instead accumulates with
counter `Add`. -/
theorem c2_last_value_wins (t iface : String) (s : Store) (vs : List Int) (v : Int) :
    storeGet (processCounterSeq t iface s (vs ++ [v])) (rxKey t iface) = some v := by
  unfold processCounterSeq
  rw [List.foldl_append]
  simp only [List.foldl_cons, List.foldl_nil]
  exact storeGet_after_counterUpdate t iface _ v

/-- A path whose first element is not named "interfaces" is skipped by
the interface-counters branch: no writes. -/
theorem decodeInterfacesChecked_unmatched (t : String) (p : GPath) (v : TypedValue)
    (h : (p.elem.headD ⟨"", []⟩).name ≠ "interfaces") :
    decodeInterfacesChecked t p v = some [] := by
  unfold decodeInterfacesChecked
  cases hel : p.elem with
  | nil => rfl
  | cons e0 tl =>
    rw [hel] at h
    simp only [List.headD_cons] at h
    by_cases h4 : 4 ≤ (e0 :: tl).length
    · rw [if_pos h4]
      simp [h]
    · rw [if_neg h4]

/-- A path whose first element is not named "qos" is skipped by the
QoS branch: no writes. -/
theorem decodeQoSChecked_unmatched (t : String) (p : GPath) (v : TypedValue)
    (h : (p.elem.headD ⟨"", []⟩).name ≠ "qos") :
    decodeQoSChecked t p v = some [] := by
  unfold decodeQoSChecked
  cases hel : p.elem with
  | nil => rfl
  | cons e0 tl =>
    rw [hel] at h
    simp only [List.headD_cons] at h
    by_cases h7 : 7 ≤ (e0 :: tl).length
    · rw [if_pos h7]
      simp [h]
    · rw [if_neg h7]

/-- An update matching neither `handleUpdate` branch produces no
writes. -/
theorem decodeUpdate_unmatched (t : String) (u : Update)
    (h1 : (u.path.elem.headD ⟨"", []⟩).name ≠ "interfaces")
    (h2 : (u.path.elem.headD ⟨"", []⟩).name ≠ "qos") :
    decodeUpdate t u = [] := by
  unfold decodeUpdate decodeUpdateChecked
  rw [decodeInterfacesChecked_unmatched t u.path u.val h1,
      decodeQoSChecked_unmatched t u.path u.val h2]
  rfl

/-- C5 counterexample: on a path matching no known template,
`handleUpdate` does not return an unrecognized-path error — it has no
error channel at all, so the update is a silent success with zero
writes. -/
theorem c5_counterexample :
    decodeOutcome "sw1" unmatchedUpdate ≠ DecodeOutcome.decodeErrorUnrecognized ∧
    decodeOutcome "sw1" unmatchedUpdate = DecodeOutcome.ok [] := by
  decide

/-- C5 amended: an update matching no known template is silently
skipped — decoding yields zero writes and no error value, the store is
left unchanged, and the receive loop continues with the remaining
trace. -/
theorem c5_unmatched_silent_skip (t : String) (s : Store) (u : Update)
    (rest : List RecvResult)
    (h1 : (u.path.elem.headD ⟨"", []⟩).name ≠ "interfaces")
    (h2 : (u.path.elem.headD ⟨"", []⟩).name ≠ "qos") :
    decodeOutcome t u = DecodeOutcome.ok [] ∧
    applyWrites s (decodeUpdate t u) = s ∧
    receiveLoop t s (RecvResult.msg (.update ⟨[u]⟩) :: rest) = receiveLoop t s rest := by
  have hd := decodeUpdate_unmatched t u h1 h2
  refine ⟨?_, ?_, ?_⟩
  · unfold decodeOutcome; rw [hd]
  · rw [hd]; rfl
  · show receiveLoop t
        (applyWrites s (handleUpdateWrites t (.update ⟨[u]⟩))) rest =
        receiveLoop t s rest
    have hw : handleUpdateWrites t (.update ⟨[u]⟩) = [] := by
      simp [handleUpdateWrites, hd]
    rw [hw]
    rfl

/-- Witness for C5 amended at the concrete unmatched update. -/
theorem c5_witness :
    (unmatchedUpdate.path.elem.headD ⟨"", []⟩).name ≠ "interfaces" ∧
    (unmatchedUpdate.path.elem.headD ⟨"", []⟩).name ≠ "qos" ∧
    (decodeOutcome "sw1" unmatchedUpdate = DecodeOutcome.ok [] ∧
     applyWrites emptyStore (decodeUpdate "sw1" unmatchedUpdate) = emptyStore ∧
     receiveLoop "sw1" emptyStore [RecvResult.msg (.update ⟨[unmatchedUpdate]⟩)] =
       receiveLoop "sw1" emptyStore []) :=
  ⟨by decide, by decide,
   c5_unmatched_silent_skip "sw1" emptyStore unmatchedUpdate [] (by decide) (by decide)⟩

/-- C7 counterexample: the update whose path matches the declared
Arista hardware-queue-drops template exactly (name sequence and key
names) is NOT recognized by `handleAristaUpdate` (its element at index
7 is "state"), while an update whose name sequence does not follow the
template at all IS recognized, because "dropped-pkts" happens to sit at
index 7. -/
theorem c7_counterexample :
    (matchesAristaTemplate aristaTemplateUpdate.path ∧
      decodeArista "sw1" aristaTemplateUpdate = []) ∧
    (¬ matchesAristaTemplate aristaPositionalUpdate.path ∧
      decodeArista "sw1" aristaPositionalUpdate ≠ []) := by
  decide

/-- C7 amended: recognition in `handleAristaUpdate` is positional, not
template-based: an update produces a write exactly when its origin is
"arista" and the element at numeric index 7 is named "dropped-pkts"
(labels are then read from fixed indices 4 and 6); matching the
declared template name sequence is neither necessary nor sufficient. -/
theorem c7_arista_recognition_positional (t : String) (u : Update) :
    decodeArista t u ≠ [] ↔
      u.path.origin = "arista" ∧
      ∃ e7, u.path.elem[7]? = some e7 ∧ e7.name = "dropped-pkts" := by
  unfold decodeArista decodeAristaChecked
  by_cases hc : u.path.origin = "arista" ∧ 7 < u.path.elem.length
  · obtain ⟨ho, hl⟩ := hc
    rw [if_pos ⟨ho, hl⟩,
      List.getElem?_eq_getElem hl,
      List.getElem?_eq_getElem (show 4 < u.path.elem.length by omega),
      List.getElem?_eq_getElem (show 6 < u.path.elem.length by omega)]
    dsimp only
    by_cases h7 : (u.path.elem[7]).name = "dropped-pkts"
    · rw [if_pos h7]
      apply iff_of_true
      · simp
      · exact ⟨ho, u.path.elem[7], rfl, h7⟩
    · rw [if_neg h7]
      apply iff_of_false
      · simp
      · rintro ⟨-, e7, he7, hname⟩
        injection he7 with he7
        subst he7
        exact h7 hname
  · rw [if_neg hc]
    apply iff_of_false
    · simp
    · rintro ⟨ho, e7, he7, -⟩
      have hlen : 7 < u.path.elem.length := by
        by_contra hlen
        rw [List.getElem?_eq_none (by omega)] at he7
        exact Option.noConfusion he7
      exact hc ⟨ho, hlen⟩

/-- Every write of the interface-counters branch carries the owning
target under the "switch" label. -/
theorem mem_decodeInterfacesChecked_labels (t : String) (p : GPath) (v : TypedValue)
    (ws : List Write) (w : Write)
    (hws : decodeInterfacesChecked t p v = some ws) (hw : w ∈ ws) :
    ("switch", t) ∈ w.labels := by
  unfold decodeInterfacesChecked at hws
  repeat' split at hws
  all_goals
    first
    | exact Option.noConfusion hws
    | (injection hws with hws; subst hws; simp at hw; done)
    | (injection hws with hws; subst hws;
       simp only [List.mem_cons, List.not_mem_nil, or_false] at hw;
       rcases hw with h | h | h | h | h | h <;> subst h <;> simp)

/-- Every write of the QoS branch carries the owning target under the
"switch" label. -/
theorem mem_decodeQoSChecked_labels (t : String) (p : GPath) (v : TypedValue)
    (ws : List Write) (w : Write)
    (hws : decodeQoSChecked t p v = some ws) (hw : w ∈ ws) :
    ("switch", t) ∈ w.labels := by
  unfold decodeQoSChecked at hws
  repeat' split at hws
  all_goals
    first
    | exact Option.noConfusion hws
    | (injection hws with hws; subst hws; simp at hw; done)
    | (injection hws with hws; subst hws;
       simp only [List.mem_cons, List.not_mem_nil, or_false] at hw;
       rcases hw with h | h <;> subst h <;> simp)

/-- Every write of the Arista handler carries the owning target under
the "switch" label. -/
theorem mem_decodeAristaChecked_labels (t : String) (u : Update)
    (ws : List Write) (w : Write)
    (hws : decodeAristaChecked t u = some ws) (hw : w ∈ ws) :
    ("switch", t) ∈ w.labels := by
  unfold decodeAristaChecked at hws
  repeat' split at hws
  all_goals
    first
    | exact Option.noConfusion hws
    | (injection hws with hws; subst hws; simp at hw; done)
    | (injection hws with hws; subst hws;
       simp only [List.mem_cons, List.not_mem_nil, or_false] at hw;
       subst hw; simp)

/-- C8 counterexample: the Evertz SNMP module-status write labels a
point only with chassis, slot and module type — the owning target
("10.1.2.3" here) appears nowhere in the label set, for any label key. -/
theorem c8_counterexample :
    (collectSNMPWrites "10.1.2.3" [⟨".1.3.6.1.4.1.6827.20.1.1.1.1.2.1.5", 1⟩]).map
        Write.labels =
      [[("chassis", "1"), ("slot", "5"), ("module_type", "unknown")]] ∧
    ∀ w ∈ collectSNMPWrites "10.1.2.3" [⟨".1.3.6.1.4.1.6827.20.1.1.1.1.2.1.5", 1⟩],
      ∀ kv ∈ w.labels, kv.2 ≠ "10.1.2.3" := by
  decide

/-- C8 amended: every metric point written by the generic gNMI handler
and by the Arista handler includes the owning target's identity as the
"switch" label value; the Evertz SNMP module-status writes omit the
target from their label set. -/
theorem c8_gnmi_arista_writes_carry_target (t : String) (u : Update) (w : Write)
    (h : w ∈ decodeUpdate t u ∨ w ∈ decodeArista t u) :
    ("switch", t) ∈ w.labels := by
  rcases h with h | h
  · unfold decodeUpdate at h
    cases hi : decodeUpdateChecked t u with
    | none => rw [hi] at h; simp at h
    | some ws =>
      rw [hi] at h
      simp only [Option.getD_some] at h
      unfold decodeUpdateChecked at hi
      cases h1 : decodeInterfacesChecked t u.path u.val with
      | none => rw [h1] at hi; exact Option.noConfusion hi
      | some wsA =>
        cases h2 : decodeQoSChecked t u.path u.val with
        | none => rw [h1, h2] at hi; exact Option.noConfusion hi
        | some wsB =>
          rw [h1, h2] at hi
          injection hi with hi
          subst hi
          rcases List.mem_append.mp h with hA | hB
          · exact mem_decodeInterfacesChecked_labels t u.path u.val wsA w h1 hA
          · exact mem_decodeQoSChecked_labels t u.path u.val wsB w h2 hB
  · unfold decodeArista at h
    cases hi : decodeAristaChecked t u with
    | none => rw [hi] at h; simp at h
    | some ws =>
      rw [hi] at h
      simp only [Option.getD_some] at h
      exact mem_decodeAristaChecked_labels t u ws w hi h

/-- Witness for C8 amended at the scenario-A update and its
received-octets write. -/
theorem c8_witness :
    ((⟨"st2110_switch_interface_rx_bytes",
        [("switch", "sw1"), ("interface", "eth0")], .set, 1000000⟩ : Write) ∈
        decodeUpdate "sw1" c1Update ∨
      (⟨"st2110_switch_interface_rx_bytes",
        [("switch", "sw1"), ("interface", "eth0")], .set, 1000000⟩ : Write) ∈
        decodeArista "sw1" c1Update) ∧
    ("switch", "sw1") ∈
      (⟨"st2110_switch_interface_rx_bytes",
        [("switch", "sw1"), ("interface", "eth0")], .set, 1000000⟩ : Write).labels :=
  ⟨Or.inl (by decide),
   c8_gnmi_arista_writes_carry_target "sw1" c1Update _ (Or.inl (by decide))⟩

end St2110
